import Mathlib

/-!
Verification of the marshalling bridge in `src/pyo3-polars/src/types.rs`.

The file gives a shallow embedding of the boundary codecs of that module:
the `DataType` codec (`impl IntoPyObject for PyDataType` and
`impl FromPyObject for PyDataType`), the `TimeUnit` codec, the series and
dataframe codecs, and the lazy-frame/expression deserialization wrappers.
Host (Python) objects are modelled by inductive types that record exactly
the constructor arguments the Rust code passes when building them and the
attributes the Rust code reads when consuming them; the host runtime itself
is an external collaborator and is modelled as storing constructor
arguments verbatim in the attributes of the same names.
-/

namespace PyO3Polars

/-- A single-quote character as a string (used inside error messages). -/
def sq : String := String.singleton (Char.ofNat 39)

/-- `polars_core` `TimeUnit`: nanoseconds, microseconds or milliseconds. -/
inductive TimeUnit where
  | nanoseconds
  | microseconds
  | milliseconds
deriving DecidableEq, Repr

/-- `polars_core` `CategoricalOrdering` (`Physical` is the `Default`). -/
inductive CategoricalOrdering where
  | physical
  | lexical
deriving DecidableEq, Repr

/-- `polars_core` `UnknownKind`: the deferred placeholder carried by
`DataType::Unknown` (`Any` is the `Default`; `Int` carries an `i128`). -/
inductive UnknownKind where
  | any
  | int (v : Int)
  | float
  | str
deriving DecidableEq, Repr

mutual

/-- `polars_core` `DataType`, restricted to the variants handled by
`types.rs` (all features on).  A categorical/enum reverse mapping
(`RevMapping`) is modelled by its ordered category list. -/
inductive DataType where
  | int8
  | int16
  | int32
  | int64
  | uint8
  | uint16
  | uint32
  | uint64
  | float32
  | float64
  | boolean
  | string
  | binary
  | binaryOffset
  | date
  | time
  | null
  | decimal (precision : Option Nat) (scale : Option Nat)
  | array (inner : DataType) (size : Nat)
  | list (inner : DataType)
  | datetime (tu : TimeUnit) (tz : Option String)
  | duration (tu : TimeUnit)
  | object
  | categorical (revMap : Option (List String)) (ordering : CategoricalOrdering)
  | enum (revMap : Option (List String)) (ordering : CategoricalOrdering)
  | struct (fields : FieldList)
  | unknown (kind : UnknownKind)

/-- An ordered list of `Field`s (`Vec<Field>` in `DataType::Struct`);
each field is a name together with a `DataType`. -/
inductive FieldList where
  | nil
  | cons (name : String) (dtype : DataType) (rest : FieldList)

end

mutual

/-- A host (Python) polars datatype value as observed at the boundary:
either a bare class (`qualname` is the literal `DataTypeClass`, with the
class name in `__name__`) or an instance whose `qualname` is the type name
and which stores its constructor arguments as attributes.  `simple n`
is an instance of class `n` created with no arguments; the parameterized
instances record the attributes the Rust decoder reads
(`time_unit`, `time_zone`, `precision`, `scale`, `inner`, `size`,
`ordering`, `categories`, `fields`). -/
inductive HostDType where
  | cls (name : String)
  | simple (name : String)
  | decimal (precision : Option Nat) (scale : Option Nat)
  | array (inner : HostDType) (size : Nat)
  | list (inner : HostDType)
  | datetime (time_unit : String) (time_zone : Option String)
  | duration (time_unit : String)
  | categorical (ordering : String)
  | enum (categories : List String)
  | struct (fields : HostFieldList)

/-- A host list of `Field(name, dtype)` objects. -/
inductive HostFieldList where
  | nil
  | cons (name : String) (dtype : HostDType) (rest : HostFieldList)

end

/-- `pyo3_polars::error::PyPolarsErr` (modelled from the spec: the error
module is not part of the analysed source file; per the spec taxonomy it
wraps engine errors in one variant and carries free-form distinct
conditions in `Other`). -/
inductive PyPolarsErr where
  | polars (msg : String)
  | other (msg : String)
deriving DecidableEq, Repr

/-- A Python-side error as raised by the bridge: the exception class
together with its message.  `panic` models a Rust `panic!`/`unreachable!`
/failed `unwrap` (fatal, not a Python exception). -/
inductive PyErr where
  | typeError (msg : String)
  | valueError (msg : String)
  | attributeError (msg : String)
  | polars (e : PyPolarsErr)
  | panic (msg : String)
deriving DecidableEq, Repr

/-- The error message of `FromPyObject for PyTimeUnit` for an unrecognized
time-unit code (the head of the Rust `format!` string, before the value). -/
def timeUnitErrHead : String :=
  "`time_unit` must be one of \x7b" ++ sq ++ "ns" ++ sq ++ ", " ++ sq ++
    "us" ++ sq ++ ", " ++ sq ++ "ms" ++ sq ++ "\x7d, got "

/-- `impl FromPyObject for PyTimeUnit` (types.rs lines 91-105): matches the
extracted string against the three 2-character codes, any other string is a
`PyValueError` naming the value. -/
def PyTimeUnit.extract_bound (s : String) : Except PyErr TimeUnit :=
  if s = "ns" then .ok .nanoseconds
  else if s = "us" then .ok .microseconds
  else if s = "ms" then .ok .milliseconds
  else .error (.valueError (timeUnitErrHead ++ s))

/-- `impl IntoPyObject for PyTimeUnit` (types.rs lines 107-123): each unit
encodes to its fixed 2-character code. -/
def PyTimeUnit.into_pyobject : TimeUnit → String
  | .nanoseconds => "ns"
  | .microseconds => "us"
  | .milliseconds => "ms"

/-- `polars_core` `TimeUnit::to_ascii` (used by the datetime/duration
encode arms); it produces the same three codes. -/
def TimeUnit.to_ascii : TimeUnit → String
  | .nanoseconds => "ns"
  | .microseconds => "us"
  | .milliseconds => "ms"

deriving instance DecidableEq for Except

/-- `polars_core::utils::materialize_dyn_int` (dependency of the source,
modelled by its documented behaviour: materialize a dynamic integer
literal at the minimal fitting width, trying `i32`, then `i64`, then
`u64`, falling back to `Null`); here only its dtype is needed. -/
def materializeDynInt (v : Int) : DataType :=
  if -2147483648 ≤ v ∧ v ≤ 2147483647 then .int32
  else if -9223372036854775808 ≤ v ∧ v ≤ 9223372036854775807 then .int64
  else if 0 ≤ v ∧ v ≤ 18446744073709551615 then .uint64
  else .null

/-- The host object produced for `DataType::Unknown(UnknownKind::Int(v))`:
the encode arm materializes `v` with `materialize_dyn_int` and encodes the
resulting concrete dtype (types.rs lines 519-524). -/
def encodeDynIntHost (v : Int) : HostDType :=
  match materializeDynInt v with
  | .int64 => .simple "Int64"
  | .uint64 => .simple "UInt64"
  | .null => .cls "Null"
  | _ => .simple "Int32"

mutual

/-- `impl IntoPyObject for PyDataType` (types.rs lines 385-536): dispatch
on the `DataType` tag, look up the matching polars class and call it with
the parameters of the variant.  `Time` and `Null` return the bare class without
calling it; `Unknown` placeholders are materialized first where possible;
`BinaryOffset` panics. -/
def PyDataType.into_pyobject : DataType → Except PyErr HostDType
  | .int8 => .ok (.simple "Int8")
  | .int16 => .ok (.simple "Int16")
  | .int32 => .ok (.simple "Int32")
  | .int64 => .ok (.simple "Int64")
  | .uint8 => .ok (.simple "UInt8")
  | .uint16 => .ok (.simple "UInt16")
  | .uint32 => .ok (.simple "UInt32")
  | .uint64 => .ok (.simple "UInt64")
  | .float32 => .ok (.simple "Float32")
  | .float64 => .ok (.simple "Float64")
  | .unknown .float => .ok (.simple "Float64")
  | .decimal precision scale => .ok (.decimal precision scale)
  | .boolean => .ok (.simple "Boolean")
  | .string => .ok (.simple "String")
  | .unknown .str => .ok (.simple "String")
  | .binary => .ok (.simple "Binary")
  | .array inner size =>
      match PyDataType.into_pyobject inner with
      | .error e => .error e
      | .ok i => .ok (.array i size)
  | .list inner =>
      match PyDataType.into_pyobject inner with
      | .error e => .error e
      | .ok i => .ok (.list i)
  | .date => .ok (.simple "Date")
  | .datetime tu tz => .ok (.datetime tu.to_ascii tz)
  | .duration tu => .ok (.duration tu.to_ascii)
  | .object => .ok (.simple "Object")
  | .categorical _ ordering =>
      .ok (.categorical (match ordering with
        | .physical => "physical"
        | .lexical => "lexical"))
  | .enum revMap _ =>
      match revMap with
      | some rm => .ok (.enum rm)
      | none => .error (.panic "rev_map should always be initialized")
  | .time => .ok (.cls "Time")
  | .struct fields =>
      match intoFieldList fields with
      | .error e => .error e
      | .ok fs => .ok (.struct fs)
  | .null => .ok (.cls "Null")
  | .unknown (.int v) => .ok (encodeDynIntHost v)
  | .unknown .any => .ok (.simple "Unknown")
  | .binaryOffset =>
      .error (.panic ("this type isn" ++ sq ++ "t exposed to python"))

/-- Encode of the field list of a struct: each `Field` becomes a host
`Field(name, dtype)` object, failures propagate. -/
def intoFieldList : FieldList → Except PyErr HostFieldList
  | .nil => .ok .nil
  | .cons name dtype rest =>
      match PyDataType.into_pyobject dtype with
      | .error e => .error e
      | .ok h =>
        match intoFieldList rest with
        | .error e => .error e
        | .ok hs => .ok (.cons name h hs)

end

/-- The `PyTypeError` message for an identifier matching no known data
type (types.rs lines 597-601 and 687-691); the identifier is quoted at
the front and the feature hint closes the sentence. -/
def unsupportedTypeMsg (dt : String) : String :=
  sq ++ (dt ++ (sq ++ (" is not a Polars data type, or the plugin isn" ++
    (sq ++ ("t " ++ "compiled with the right features")))))

/-- The bare-class arm of `FromPyObject for PyDataType` (types.rs lines
557-603): the `qualname` of the host value was `DataTypeClass`, so its
`__name__` is matched against the fixed identifier table, yielding the
default-parameter variants; `Object` is `todo!()`; anything else is a
`PyTypeError` naming the identifier. -/
def decodeBareName (name : String) : Except PyErr DataType :=
  if name = "Int8" then .ok .int8
  else if name = "Int16" then .ok .int16
  else if name = "Int32" then .ok .int32
  else if name = "Int64" then .ok .int64
  else if name = "UInt8" then .ok .uint8
  else if name = "UInt16" then .ok .uint16
  else if name = "UInt32" then .ok .uint32
  else if name = "UInt64" then .ok .uint64
  else if name = "Float32" then .ok .float32
  else if name = "Float64" then .ok .float64
  else if name = "Boolean" then .ok .boolean
  else if name = "String" then .ok .string
  else if name = "Binary" then .ok .binary
  else if name = "Categorical" then .ok (.categorical none .physical)
  else if name = "Enum" then .ok (.enum none .physical)
  else if name = "Date" then .ok .date
  else if name = "Time" then .ok .time
  else if name = "Datetime" then .ok (.datetime .microseconds none)
  else if name = "Duration" then .ok (.duration .microseconds)
  else if name = "Decimal" then .ok (.decimal none none)
  else if name = "List" then .ok (.list .null)
  else if name = "Array" then .ok (.array .null 0)
  else if name = "Struct" then .ok (.struct .nil)
  else if name = "Null" then .ok .null
  else if name = "Object" then .error (.panic "not yet implemented")
  else if name = "Unknown" then .ok (.unknown .any)
  else .error (.typeError (unsupportedTypeMsg name))

/-- The instance arms of `FromPyObject for PyDataType` for instances
created with no constructor arguments: primitive type names map directly;
an instance whose type name belongs to a parameterized class but which
lacks the expected attributes fails at the attribute lookup (`unwrap`
panic, or an attribute error where the source uses `?`); an `Object`
instance is `panic!("object not supported")`; an unmatched name is a
`PyTypeError` naming it (types.rs lines 604-691). -/
def decodeSimpleName (name : String) : Except PyErr DataType :=
  if name = "Int8" then .ok .int8
  else if name = "Int16" then .ok .int16
  else if name = "Int32" then .ok .int32
  else if name = "Int64" then .ok .int64
  else if name = "UInt8" then .ok .uint8
  else if name = "UInt16" then .ok .uint16
  else if name = "UInt32" then .ok .uint32
  else if name = "UInt64" then .ok .uint64
  else if name = "Float32" then .ok .float32
  else if name = "Float64" then .ok .float64
  else if name = "Boolean" then .ok .boolean
  else if name = "String" then .ok .string
  else if name = "Binary" then .ok .binary
  else if name = "Categorical" then .error (.panic "missing attribute: ordering")
  else if name = "Enum" then .error (.panic "missing attribute: categories")
  else if name = "Date" then .ok .date
  else if name = "Time" then .ok .time
  else if name = "Datetime" then .error (.panic "missing attribute: time_unit")
  else if name = "Duration" then .error (.panic "missing attribute: time_unit")
  else if name = "Decimal" then .error (.attributeError "precision")
  else if name = "List" then .error (.panic "missing attribute: inner")
  else if name = "Array" then .error (.panic "missing attribute: inner")
  else if name = "Struct" then .error (.attributeError "fields")
  else if name = "Null" then .ok .null
  else if name = "Object" then .error (.panic "object not supported")
  else if name = "Unknown" then .ok (.unknown .any)
  else .error (.typeError (unsupportedTypeMsg name))

mutual

/-- `impl FromPyObject for PyDataType` (types.rs lines 552-695): dispatch
on the type name of the host value; a bare class goes through the `__name__`
table, instances read their parameter attributes.  A parameterized
`Categorical` keeps only its ordering mode (reverse mapping `None`); an
`Enum` rebuilds a local reverse mapping from its `categories`; `Decimal`
extracts `precision` as an optional integer and `scale` as a plain
integer (a `None` scale fails the extraction); `Datetime`/`Duration` go
through the `PyTimeUnit` codec; `List`/`Array`/`Struct` recurse. -/
def PyDataType.extract_bound : HostDType → Except PyErr DataType
  | .cls name => decodeBareName name
  | .simple name => decodeSimpleName name
  | .decimal precision scale =>
      match scale with
      | some s => .ok (.decimal precision (some s))
      | none => .error (.typeError "cannot extract scale: expected int, got None")
  | .array inner size =>
      match PyDataType.extract_bound inner with
      | .error e => .error e
      | .ok i => .ok (.array i size)
  | .list inner =>
      match PyDataType.extract_bound inner with
      | .error e => .error e
      | .ok i => .ok (.list i)
  | .datetime time_unit time_zone =>
      match PyTimeUnit.extract_bound time_unit with
      | .error e => .error e
      | .ok tu => .ok (.datetime tu time_zone)
  | .duration time_unit =>
      match PyTimeUnit.extract_bound time_unit with
      | .error e => .error e
      | .ok tu => .ok (.duration tu)
  | .categorical ordering =>
      if ordering = "physical" then .ok (.categorical none .physical)
      else if ordering = "lexical" then .ok (.categorical none .lexical)
      else .error (.valueError ("invalid ordering argument: " ++ ordering))
  | .enum categories => .ok (.enum (some categories) .physical)
  | .struct fields =>
      match extractFieldList fields with
      | .error e => .error e
      | .ok fs => .ok (.struct fs)

/-- Decode of a host field list (`Vec<PyField>` extraction, types.rs
lines 78-89 and 673-682): each host `Field` contributes its `name` and
recursively decoded `dtype`. -/
def extractFieldList : HostFieldList → Except PyErr FieldList
  | .nil => .ok .nil
  | .cons name d rest =>
      match PyDataType.extract_bound d with
      | .error e => .error e
      | .ok dt =>
        match extractFieldList rest with
        | .error e => .error e
        | .ok fs => .ok (.cons name dt fs)

end

/-- `polars_core` `CompatLevel::newest()`: compatibility level 1 at the
pinned engine version. -/
def CompatLevel.newest : Nat := 1

/-- `polars_core` `CompatLevel::oldest()`: compatibility level 0. -/
def CompatLevel.oldest : Nat := 0

/-- `polars_core` `CompatLevel::with_level(level)`: accepts any level up
to `newest`, errors above it. -/
def CompatLevel.with_level (level : Nat) : Option Nat :=
  if level ≤ CompatLevel.newest then some level else none

/-- The host capabilities probed by the series encoder: whether the host
series class exposes `_import_arrow_from_c` / `_import_from_c`, and the
value returned by its `_newest_compat_level` hook when that attribute is
present (`none` models an absent attribute). -/
structure HostEnv where
  has_import_arrow_from_c : Bool
  has_import_from_c : Bool
  newest_compat_level : Option Nat
deriving DecidableEq, Repr

/-- A native `Series`: a name and an ordered sequence of contiguous
chunks; the cell values of a chunk are abstracted to integers, which is
enough for the boundary claims (chunk counts, lengths, name). -/
structure Series where
  name : String
  chunks : List (List Int)
deriving DecidableEq, Repr

/-- `Series::n_chunks`. -/
def Series.n_chunks (s : Series) : Nat := s.chunks.length

/-- `Series::rechunk`: concatenate all chunks into a single contiguous
chunk. -/
def Series.rechunk (s : Series) : Series :=
  { s with chunks := [s.chunks.flatten] }

/-- `Series::len`: the total logical length over all chunks. -/
def Series.len (s : Series) : Nat :=
  (s.chunks.map List.length).sum

/-- `Series::to_arrow(i, compat_level)`: the arrow export of chunk `i`
(the compatibility level changes the physical encoding, not the values
modelled here). -/
def Series.to_arrow (s : Series) (i : Nat) : List Int :=
  s.chunks.getD i []

/-- The observable outcome of `impl IntoPyObject for PySeries`:
either the polars-native route, recording the exported name, the
negotiated compatibility level and one exported `(ArrowSchema, ArrowArray)`
descriptor-pair payload per element of `chunkPairs`, or the pyarrow
fallback route, recording the name, the compatibility level and the single
exported array. -/
inductive SeriesExport where
  | viaPolars (name : String) (compatLevel : Nat) (chunkPairs : List (List Int))
  | viaPyarrow (name : String) (compatLevel : Nat) (arr : List Int)
deriving DecidableEq, Repr

/-- The number of `(schema, data)` descriptor pairs handed across the
boundary by a series export. -/
def SeriesExport.numDescriptorPairs : SeriesExport → Nat
  | .viaPolars _ _ chunkPairs => chunkPairs.length
  | .viaPyarrow _ _ _ => 1

/-- The compatibility level a series export passed to `to_arrow`. -/
def SeriesExport.compatLevel : SeriesExport → Nat
  | .viaPolars _ c _ => c
  | .viaPyarrow _ c _ => c

/-- `impl IntoPyObject for PySeries` (types.rs lines 243-318): if the host
series class has `_import_arrow_from_c` (or, failing that,
`_import_from_c`), negotiate a compatibility level — `map_or(1, hook())`
then `CompatLevel::with_level(..).unwrap_or(CompatLevel::newest())` — and
export every chunk `0..n_chunks` as its own `(ArrowSchema, ArrowArray)`
descriptor pair; otherwise rechunk, export chunk 0 at
`CompatLevel::oldest()` and go through pyarrow. -/
def PySeries.into_pyobject (env : HostEnv) (s : Series) : SeriesExport :=
  if env.has_import_arrow_from_c || env.has_import_from_c then
    let compat_level :=
      (CompatLevel.with_level (env.newest_compat_level.getD 1)).getD
        CompatLevel.newest
    .viaPolars s.name compat_level s.chunks
  else
    let s := s.rechunk
    .viaPyarrow s.name CompatLevel.oldest (s.to_arrow 0)

/-- A host (Python) series as consumed by the series decoder: its `name`,
its chunked data, and the value of its `_newest_compat_level` hook when
present. -/
structure HostSeries where
  name : String
  chunks : List (List Int)
  newest_compat_level : Option Nat
deriving DecidableEq, Repr

/-- Host `Series.rechunk` (the first call the decoder makes). -/
def HostSeries.rechunk (hs : HostSeries) : HostSeries :=
  { hs with chunks := [hs.chunks.flatten] }

/-- Host `Series.to_arrow(**kwargs)`: the whole (rechunked) series as one
arrow array (the `compat_level` kwarg affects only the physical
encoding). -/
def HostSeries.to_arrow (hs : HostSeries) : List Int :=
  hs.chunks.flatten

/-- `impl FromPyObject for PySeries` (types.rs lines 175-197): rechunk the
host series, read its name, forward the host `_newest_compat_level` (as
a `to_arrow` kwarg) when the hook is present, convert the resulting arrow
array and build a one-chunk native series carrying the extracted name. -/
def PySeries.extract_bound (hs : HostSeries) : Except PyErr Series :=
  let ob := hs.rechunk
  let name := ob.name
  let arr := ob.to_arrow
  .ok { name := name, chunks := [arr] }

/-- A native `DataFrame`: a cached height and the column list. -/
structure DataFrame where
  height : Nat
  columns : List Series
deriving DecidableEq, Repr

/-- `polars_core` `DataFrame::new_no_checks_height_from_first`
(dependency of the source, modelled by its documented behaviour: an
`unsafe` constructor that takes the height of the first column — `0` when
there are no columns — and performs no equal-length validation of the
remaining columns). -/
def DataFrame.new_no_checks_height_from_first (columns : List Series) : DataFrame :=
  { height := match columns with
      | [] => 0
      | c :: _ => c.len,
    columns := columns }

/-- A host (Python) dataframe as consumed by the decoder: the list
returned by `get_columns` (its `width` attribute equals the list
length and is read only as a capacity hint). -/
structure HostDataFrame where
  columns : List HostSeries
deriving DecidableEq, Repr

/-- Column extraction loop of `FromPyObject for PyDataFrame`: each host
column is decoded through the series codec, failures propagate. -/
def extractColumns : List HostSeries → Except PyErr (List Series)
  | [] => .ok []
  | hs :: rest =>
      match PySeries.extract_bound hs with
      | .error e => .error e
      | .ok s =>
        match extractColumns rest with
        | .error e => .error e
        | .ok ss => .ok (s :: ss)

/-- `impl FromPyObject for PyDataFrame` (types.rs lines 199-215): iterate
`get_columns`, decode each column through the series codec, and assemble
the frame with `DataFrame::new_no_checks_height_from_first`. -/
def PyDataFrame.extract_bound (hdf : HostDataFrame) : Except PyErr DataFrame :=
  match extractColumns hdf.columns with
  | .error e => .error e
  | .ok columns => .ok (DataFrame.new_no_checks_height_from_first columns)

/-- The error message produced when deserializing a `LazyFrame` state
blob fails (types.rs lines 217-228); `e` is the underlying ciborium
error rendering. -/
def lazyDeserializeMsg (e : String) : String :=
  "Error when deserializing LazyFrame. " ++
    ("This may be due to mismatched polars versions" ++ (". " ++ e))

/-- The error message produced when deserializing an `Expr` state blob
fails (types.rs lines 230-241). -/
def exprDeserializeMsg (e : String) : String :=
  ("Error when deserializing " ++ (sq ++ ("Expr" ++ (sq ++ ". ")))) ++
    ("This may be due to mismatched polars versions" ++ (". " ++ e))

/-- `impl FromPyObject for PyLazyFrame` (types.rs lines 217-228): read the
`__getstate__` bytes of the host object and deserialize them; `deserialize`
stands for `ciborium::de::from_reader` into a `DslPlan` (the plan type and
the ciborium decoder live outside the analysed source, so the theorem is
stated for every deserializer).  A failure is wrapped as
`PyPolarsErr::Other` with the version-mismatch message. -/
def PyLazyFrame.extract_bound {Plan : Type}
    (deserialize : List Nat → Except String Plan) (state : List Nat) :
    Except PyErr Plan :=
  match deserialize state with
  | .error e => .error (.polars (.other (lazyDeserializeMsg e)))
  | .ok lp => .ok lp

/-- `impl FromPyObject for PyExpr` (types.rs lines 230-241): same shape as
the lazy-frame decode, with the `Expr`-flavoured message. -/
def PyExpr.extract_bound {ExprT : Type}
    (deserialize : List Nat → Except String ExprT) (state : List Nat) :
    Except PyErr ExprT :=
  match deserialize state with
  | .error e => .error (.polars (.other (exprDeserializeMsg e)))
  | .ok e => .ok e

mutual

/-- A `DataType` value is *constructible with explicit parameters* when
every parameter the host-side constructor takes is explicitly supplied and
concrete: all primitive leaves; `Datetime`/`Duration` with a time unit
(and optional zone); `Decimal` with both precision and scale; `List`,
`Array` and `Struct` whose inner types are themselves explicit; a
`Categorical` with an explicit ordering and no engine-side reverse
mapping.  Deferred `Unknown` placeholders, the opaque `Object`, the
internal-only `BinaryOffset` and reverse-mapping-carrying values are not
host-constructible from explicit parameters. -/
def explicitParams : DataType → Bool
  | .int8 | .int16 | .int32 | .int64 => true
  | .uint8 | .uint16 | .uint32 | .uint64 => true
  | .float32 | .float64 | .boolean | .string | .binary => true
  | .date | .time | .null => true
  | .decimal (some _) (some _) => true
  | .decimal _ _ => false
  | .array inner _ => explicitParams inner
  | .list inner => explicitParams inner
  | .datetime _ _ => true
  | .duration _ => true
  | .categorical none _ => true
  | .categorical (some _) _ => false
  | .enum _ _ => false
  | .object => false
  | .struct fields => explicitParamsFields fields
  | .unknown _ => false
  | .binaryOffset => false

/-- Every field dtype of the list is explicit. -/
def explicitParamsFields : FieldList → Bool
  | .nil => true
  | .cons _ dtype rest => explicitParams dtype && explicitParamsFields rest

end

/-- `decode ∘ encode` on datatypes: encode to a host object, propagate an
encode failure, otherwise decode the host object back. -/
def extractAfterInto (dt : DataType) : Except PyErr DataType :=
  match PyDataType.into_pyobject dt with
  | .error e => .error e
  | .ok h => PyDataType.extract_bound h

/-- `decode ∘ encode` on field lists. -/
def extractFieldsAfterInto (fs : FieldList) : Except PyErr FieldList :=
  match intoFieldList fs with
  | .error e => .error e
  | .ok hs => extractFieldList hs

/-- `needle` occurs verbatim inside `hay`. -/
def strContains (hay needle : String) : Prop :=
  ∃ pre post, hay = pre ++ (needle ++ post)

mutual

/-- Round-trip of the datatype codec on explicit-parameter values. -/
theorem roundtrip_dt : (dt : DataType) → explicitParams dt = true →
    extractAfterInto dt = .ok dt
  | .int8, _ => rfl
  | .int16, _ => rfl
  | .int32, _ => rfl
  | .int64, _ => rfl
  | .uint8, _ => rfl
  | .uint16, _ => rfl
  | .uint32, _ => rfl
  | .uint64, _ => rfl
  | .float32, _ => rfl
  | .float64, _ => rfl
  | .boolean, _ => rfl
  | .string, _ => rfl
  | .binary, _ => rfl
  | .date, _ => rfl
  | .time, _ => rfl
  | .null, _ => rfl
  | .decimal (some _) (some _), _ => rfl
  | .decimal none (some _), h => nomatch h
  | .decimal none none, h => nomatch h
  | .decimal (some _) none, h => nomatch h
  | .datetime tu tz, _ => by cases tu <;> rfl
  | .duration tu, _ => by cases tu <;> rfl
  | .categorical none ordering, _ => by cases ordering <;> rfl
  | .array inner size, h => by
      have ih := roundtrip_dt inner (by simpa [explicitParams] using h)
      unfold extractAfterInto at ih ⊢
      cases hInto : PyDataType.into_pyobject inner with
      | error e => rw [hInto] at ih; exact absurd ih (by simp)
      | ok hi =>
        rw [hInto] at ih
        have ih2 : PyDataType.extract_bound hi = .ok inner := ih
        simp [PyDataType.into_pyobject, hInto, PyDataType.extract_bound, ih2]
  | .list inner, h => by
      have ih := roundtrip_dt inner (by simpa [explicitParams] using h)
      unfold extractAfterInto at ih ⊢
      cases hInto : PyDataType.into_pyobject inner with
      | error e => rw [hInto] at ih; exact absurd ih (by simp)
      | ok hi =>
        rw [hInto] at ih
        have ih2 : PyDataType.extract_bound hi = .ok inner := ih
        simp [PyDataType.into_pyobject, hInto, PyDataType.extract_bound, ih2]
  | .struct fields, h => by
      have ih := roundtrip_fields fields (by simpa [explicitParams] using h)
      unfold extractFieldsAfterInto at ih
      unfold extractAfterInto
      cases hInto : intoFieldList fields with
      | error e => rw [hInto] at ih; exact absurd ih (by simp)
      | ok hs =>
        rw [hInto] at ih
        have ih2 : extractFieldList hs = .ok fields := ih
        simp [PyDataType.into_pyobject, hInto, PyDataType.extract_bound, ih2]

/-- Round-trip of the field-list codec on explicit-parameter fields. -/
theorem roundtrip_fields : (fs : FieldList) → explicitParamsFields fs = true →
    extractFieldsAfterInto fs = .ok fs
  | .nil, _ => rfl
  | .cons name dtype rest, h => by
      have h1 : explicitParams dtype = true :=
        (Bool.and_eq_true _ _ |>.mp (by simpa [explicitParamsFields] using h)).1
      have h2 : explicitParamsFields rest = true :=
        (Bool.and_eq_true _ _ |>.mp (by simpa [explicitParamsFields] using h)).2
      have ihd := roundtrip_dt dtype h1
      have ihr := roundtrip_fields rest h2
      unfold extractAfterInto at ihd
      unfold extractFieldsAfterInto at ihr ⊢
      cases hInto : PyDataType.into_pyobject dtype with
      | error e => rw [hInto] at ihd; exact absurd ihd (by simp)
      | ok hd =>
        rw [hInto] at ihd
        have ihd2 : PyDataType.extract_bound hd = .ok dtype := ihd
        cases hIntoR : intoFieldList rest with
        | error e => rw [hIntoR] at ihr; exact absurd ihr (by simp)
        | ok hs =>
          rw [hIntoR] at ihr
          have ihr2 : extractFieldList hs = .ok rest := ihr
          simp [intoFieldList, hInto, hIntoR, extractFieldList, ihd2, ihr2]

end

/-- The fixed identifier table of the datatype decoder: every type name
the dispatch recognizes, including the `DataTypeClass` marker of a bare
class (types.rs lines 552-695). -/
def knownTypeNames : List String :=
  ["DataTypeClass", "Int8", "Int16", "Int32", "Int64", "UInt8", "UInt16",
   "UInt32", "UInt64", "Float32", "Float64", "Boolean", "String", "Binary",
   "Categorical", "Enum", "Date", "Time", "Datetime", "Duration", "Decimal",
   "List", "Array", "Struct", "Null", "Object", "Unknown"]

/-- A host datatype object is a residual `Unknown` when it is the host
`Unknown` class or an instance of it. -/
def HostDType.isUnknownHost : HostDType → Bool
  | .simple n => n == "Unknown"
  | .cls n => n == "Unknown"
  | _ => false

/-- `materialize_dyn_int` yields one of the three integer dtypes or
`Null`. -/
theorem materializeDynInt_cases (v : Int) :
    materializeDynInt v = .int32 ∨ materializeDynInt v = .int64 ∨
      materializeDynInt v = .uint64 ∨ materializeDynInt v = .null := by
  unfold materializeDynInt
  split_ifs <;> simp

/-- Encoding an integer placeholder agrees with encoding its materialized
dtype. -/
theorem into_unknown_int_eq (v : Int) :
    PyDataType.into_pyobject (.unknown (.int v)) =
      PyDataType.into_pyobject (materializeDynInt v) := by
  rcases materializeDynInt_cases v with h | h | h | h <;>
    simp [PyDataType.into_pyobject, encodeDynIntHost, h]

/-- The column loop of the dataframe decoder succeeds on every host
column, producing a one-chunk series with the name and values of the
host column. -/
theorem extractColumns_ok (l : List HostSeries) :
    extractColumns l =
      .ok (l.map fun hs => { name := hs.name, chunks := [hs.chunks.flatten] }) := by
  induction l with
  | nil => rfl
  | cons hs rest ih =>
      simp [extractColumns, PySeries.extract_bound, HostSeries.rechunk,
        HostSeries.to_arrow, ih]

/-- C1: for every `DataType` value constructible with explicit parameters
(datetime with a time unit and zone, duration with a time unit, decimal
with precision and scale, list with an inner type, array with inner type
and size, struct with a field list, and the primitive leaves), decoding
the host type object produced by encoding it yields the original value:
`decode (encode dt) = dt`. -/
theorem c1_explicit_roundtrip (dt : DataType) (h : explicitParams dt = true) :
    extractAfterInto dt = .ok dt :=
  roundtrip_dt dt h

/-- C1 witness: a nested explicit-parameter value — a struct holding a
decimal field and a list-of-array-of-datetime field — round-trips. -/
theorem c1_explicit_roundtrip_witness :
    explicitParams (.struct (.cons "a" (.decimal (some 10) (some 2))
      (.cons "b" (.list (.array (.datetime .milliseconds (some "UTC")) 3))
        .nil))) = true ∧
    extractAfterInto (.struct (.cons "a" (.decimal (some 10) (some 2))
      (.cons "b" (.list (.array (.datetime .milliseconds (some "UTC")) 3))
        .nil))) =
      .ok (.struct (.cons "a" (.decimal (some 10) (some 2))
        (.cons "b" (.list (.array (.datetime .milliseconds (some "UTC")) 3))
          .nil))) :=
  ⟨rfl, c1_explicit_roundtrip _ rfl⟩

/-- C5: every bare (unparameterized) type identifier decodes to the
documented default-parameter variant: `List` to list-of-null, `Datetime`
to microseconds with no zone, `Duration` to microseconds, `Decimal` to no
precision and no scale. -/
theorem c5_bare_defaults :
    PyDataType.extract_bound (.cls "List") = .ok (.list .null) ∧
    PyDataType.extract_bound (.cls "Datetime") =
      .ok (.datetime .microseconds none) ∧
    PyDataType.extract_bound (.cls "Duration") =
      .ok (.duration .microseconds) ∧
    PyDataType.extract_bound (.cls "Decimal") = .ok (.decimal none none) :=
  ⟨rfl, rfl, rfl, rfl⟩

/-- C6: every type identifier matching no known data type — as a bare
class name or as an instance type name — fails with an unsupported-type
`PyTypeError` whose message contains the offending identifier verbatim
and the hint that the plugin may lack a build feature. -/
theorem c6_unknown_identifier (name : String) (h : name ∉ knownTypeNames) :
    PyDataType.extract_bound (.cls name) =
      .error (.typeError (unsupportedTypeMsg name)) ∧
    PyDataType.extract_bound (.simple name) =
      .error (.typeError (unsupportedTypeMsg name)) ∧
    strContains (unsupportedTypeMsg name) name ∧
    strContains (unsupportedTypeMsg name) "compiled with the right features" := by
  have hn := h
  simp only [knownTypeNames, List.mem_cons, List.mem_singleton, not_or] at hn
  obtain ⟨hA, h1, h2, h3, h4, h5, h6, h7, h8, h9, h10, h11, h12, h13, h14,
    h15, h16, h17, h18, h19, h20, h21, h22, h23, h24, h25, h26⟩ := hn
  refine ⟨?_, ?_, ?_, ?_⟩
  · simp [PyDataType.extract_bound, decodeBareName, h1, h2, h3, h4, h5, h6,
      h7, h8, h9, h10, h11, h12, h13, h14, h15, h16, h17, h18, h19, h20,
      h21, h22, h23, h24, h25, h26]
  · simp [PyDataType.extract_bound, decodeSimpleName, h1, h2, h3, h4, h5, h6,
      h7, h8, h9, h10, h11, h12, h13, h14, h15, h16, h17, h18, h19, h20,
      h21, h22, h23, h24, h25, h26]
  · exact ⟨sq, sq ++ (" is not a Polars data type, or the plugin isn" ++
      (sq ++ ("t " ++ "compiled with the right features"))), rfl⟩
  · exact ⟨sq ++ (name ++ (sq ++ (" is not a Polars data type, or the plugin isn" ++
      (sq ++ "t ")))), "", by
        simp [unsupportedTypeMsg, String.append_assoc, String.append_empty]⟩

/-- C6 witness: the identifier `NotAType` is unknown in both positions
and the error message carries it. -/
theorem c6_unknown_identifier_witness :
    "NotAType" ∉ knownTypeNames ∧
    PyDataType.extract_bound (.cls "NotAType") =
      .error (.typeError (unsupportedTypeMsg "NotAType")) ∧
    strContains (unsupportedTypeMsg "NotAType") "NotAType" :=
  ⟨by decide,
   (c6_unknown_identifier "NotAType" (by decide)).1,
   (c6_unknown_identifier "NotAType" (by decide)).2.2.1⟩

/-- C9: time-unit decode succeeds exactly on the three 2-character codes
`ns`, `us`, `ms` (yielding the matching unit) and fails with an
invalid-parameter `PyValueError` naming the offending value on every
other string; every unit encodes to one of the three codes and
`decode (encode tu) = tu`. -/
theorem c9_time_unit_codec :
    (PyTimeUnit.extract_bound "ns" = .ok .nanoseconds ∧
     PyTimeUnit.extract_bound "us" = .ok .microseconds ∧
     PyTimeUnit.extract_bound "ms" = .ok .milliseconds) ∧
    (∀ s : String, s ≠ "ns" → s ≠ "us" → s ≠ "ms" →
      PyTimeUnit.extract_bound s =
        .error (.valueError (timeUnitErrHead ++ s)) ∧
      strContains (timeUnitErrHead ++ s) s) ∧
    (∀ tu : TimeUnit,
      (PyTimeUnit.into_pyobject tu = "ns" ∨ PyTimeUnit.into_pyobject tu = "us" ∨
        PyTimeUnit.into_pyobject tu = "ms") ∧
      PyTimeUnit.extract_bound (PyTimeUnit.into_pyobject tu) = .ok tu) := by
  refine ⟨⟨rfl, rfl, rfl⟩, ?_, ?_⟩
  · intro s h1 h2 h3
    refine ⟨by simp [PyTimeUnit.extract_bound, h1, h2, h3],
      ⟨timeUnitErrHead, "", by rw [String.append_empty]⟩⟩
  · intro tu
    cases tu <;> exact ⟨by simp [PyTimeUnit.into_pyobject], rfl⟩

/-- C9 witness: the code `xx` is rejected with the message naming it. -/
theorem c9_time_unit_codec_witness :
    PyTimeUnit.extract_bound "xx" =
      .error (.valueError (timeUnitErrHead ++ "xx")) ∧
    strContains (timeUnitErrHead ++ "xx") "xx" :=
  c9_time_unit_codec.2.1 "xx" (by decide) (by decide) (by decide)

/-- C10: decoding a parameterized host `Categorical` instance yields a
`Categorical` with no reverse mapping, keeping only the ordering mode;
only the strings `physical` and `lexical` are accepted, any other
ordering string is an invalid-parameter `PyValueError`; and the encoder
likewise passes only the ordering mode to the host. -/
theorem c10_categorical_decode :
    PyDataType.extract_bound (.categorical "physical") =
      .ok (.categorical none .physical) ∧
    PyDataType.extract_bound (.categorical "lexical") =
      .ok (.categorical none .lexical) ∧
    (∀ s : String, s ≠ "physical" → s ≠ "lexical" →
      PyDataType.extract_bound (.categorical s) =
        .error (.valueError ("invalid ordering argument: " ++ s))) ∧
    (∀ s dt, PyDataType.extract_bound (.categorical s) = .ok dt →
      dt = .categorical none .physical ∨ dt = .categorical none .lexical) ∧
    (∀ rm ordering, PyDataType.into_pyobject (.categorical rm ordering) =
      .ok (.categorical (match ordering with
        | .physical => "physical"
        | .lexical => "lexical"))) := by
  refine ⟨rfl, rfl, ?_, ?_, ?_⟩
  · intro s h1 h2
    simp [PyDataType.extract_bound, h1, h2]
  · intro s dt h
    by_cases h1 : s = "physical"
    · subst h1
      simp only [PyDataType.extract_bound, if_pos rfl] at h
      exact Or.inl (by injection h; simp_all)
    · by_cases h2 : s = "lexical"
      · subst h2
        simp only [PyDataType.extract_bound] at h
        exact Or.inr (by injection h; simp_all)
      · simp [PyDataType.extract_bound, h1, h2] at h
  · intro rm ordering
    cases ordering <;> rfl

/-- C10 witness: the ordering string `alphabetical` is rejected. -/
theorem c10_categorical_decode_witness :
    PyDataType.extract_bound (.categorical "alphabetical") =
      .error (.valueError ("invalid ordering argument: " ++ "alphabetical")) :=
  c10_categorical_decode.2.2.1 "alphabetical" (by decide) (by decide)

/-- C2 (counterexample): decoding a host dataframe whose two columns have
lengths 1 and 2 does not surface a construction failure — it succeeds,
taking the height from the first column while the second column keeps its
mismatched length. -/
theorem c2_mismatch_counterexample :
    PyDataFrame.extract_bound ⟨[⟨"a", [[1]], none⟩, ⟨"b", [[1, 2]], none⟩]⟩ =
      .ok ⟨1, [⟨"a", [[1]]⟩, ⟨"b", [[1, 2]]⟩]⟩ ∧
    Series.len ⟨"a", [[1]]⟩ = 1 ∧ Series.len ⟨"b", [[1, 2]]⟩ = 2 :=
  ⟨rfl, rfl, rfl⟩

/-- C2 (amended): the decoded table takes its height from the first
column and performs no validation of the remaining columns — decoding
always succeeds, every column keeps its own length (nothing is truncated
or padded), and mismatched lengths do not surface. -/
theorem c2_no_length_validation (hdf : HostDataFrame) :
    ∃ df, PyDataFrame.extract_bound hdf = .ok df ∧
      df.columns.map Series.len =
        hdf.columns.map (fun hs => (hs.chunks.map List.length).sum) ∧
      df.height = (match hdf.columns with
        | [] => 0
        | c :: _ => (c.chunks.map List.length).sum) := by
  refine ⟨DataFrame.new_no_checks_height_from_first
      (hdf.columns.map fun hs => { name := hs.name, chunks := [hs.chunks.flatten] }),
    by simp [PyDataFrame.extract_bound, extractColumns_ok], ?_, ?_⟩
  · simp only [DataFrame.new_no_checks_height_from_first, List.map_map]
    refine List.map_congr_left ?_
    intro hs _
    simp [Series.len, Function.comp]
  · cases hdf.columns with
    | nil => rfl
    | cons c rest =>
        simp [DataFrame.new_no_checks_height_from_first, Series.len]

/-- C2 witness: the amended theorem applied to the mismatched two-column
host dataframe. -/
theorem c2_no_length_validation_witness :
    ∃ df, PyDataFrame.extract_bound
        ⟨[⟨"a", [[1]], none⟩, ⟨"b", [[1, 2]], none⟩]⟩ = .ok df ∧
      df.columns.map Series.len = [1, 2] ∧
      df.height = 1 :=
  c2_no_length_validation ⟨[⟨"a", [[1]], none⟩, ⟨"b", [[1, 2]], none⟩]⟩

/-- C3 (counterexample): with the native import hook available but no
`_newest_compat_level` hook on the host, the series encoder negotiates
compatibility level 1 — the newest — not the oldest level 0. -/
theorem c3_absent_hook_counterexample :
    (PySeries.into_pyobject ⟨true, false, none⟩ ⟨"x", [[1]]⟩).compatLevel =
      CompatLevel.newest ∧
    CompatLevel.newest ≠ CompatLevel.oldest :=
  ⟨rfl, by decide⟩

/-- C3 (amended): on series encode through the native hook, the
compatibility level is negotiated by probing `_newest_compat_level`:
when the hook is present its value goes through
`CompatLevel::with_level` (an out-of-range value falls back to the
newest level); when the hook is absent, level 1 — the newest — is
assumed. -/
theorem c3_compat_negotiation (env : HostEnv) (s : Series)
    (h : env.has_import_arrow_from_c = true ∨ env.has_import_from_c = true) :
    (PySeries.into_pyobject env s).compatLevel =
      (CompatLevel.with_level (env.newest_compat_level.getD 1)).getD
        CompatLevel.newest ∧
    (env.newest_compat_level = none →
      (PySeries.into_pyobject env s).compatLevel = CompatLevel.newest) := by
  have hcond : (env.has_import_arrow_from_c || env.has_import_from_c) = true := by
    rcases h with h | h <;> simp [h]
  constructor
  · simp [PySeries.into_pyobject, hcond, SeriesExport.compatLevel]
  · intro hn
    simp [PySeries.into_pyobject, hcond, SeriesExport.compatLevel, hn,
      CompatLevel.with_level, CompatLevel.newest]

/-- C3 witness: the amended theorem at an environment whose host lacks
the hook. -/
theorem c3_compat_negotiation_witness :
    (PySeries.into_pyobject ⟨true, false, none⟩ ⟨"x", [[1]]⟩).compatLevel =
      (CompatLevel.with_level ((none : Option Nat).getD 1)).getD
        CompatLevel.newest ∧
    ((none : Option Nat) = none →
      (PySeries.into_pyobject ⟨true, false, none⟩ ⟨"x", [[1]]⟩).compatLevel =
        CompatLevel.newest) :=
  c3_compat_negotiation ⟨true, false, none⟩ ⟨"x", [[1]]⟩ (Or.inl rfl)

/-- C4 (counterexample): a two-chunk series exported through the native
hook is not rechunked — it yields two descriptor pairs carrying the
original chunks, not exactly one. -/
theorem c4_two_chunks_counterexample :
    PySeries.into_pyobject ⟨true, false, none⟩ ⟨"x", [[1], [2]]⟩ =
      .viaPolars "x" 1 [[1], [2]] ∧
    (PySeries.into_pyobject ⟨true, false, none⟩
      ⟨"x", [[1], [2]]⟩).numDescriptorPairs = 2 ∧
    ¬ (PySeries.into_pyobject ⟨true, false, none⟩
      ⟨"x", [[1], [2]]⟩).numDescriptorPairs = 1 :=
  ⟨rfl, rfl, by decide⟩

/-- C4 (amended): the native-hook export path performs no rechunk and
exports one descriptor pair per source chunk (N pairs for N chunks);
only the pyarrow fallback path rechunks, exporting the single
concatenated array at the oldest compatibility level. -/
theorem c4_per_chunk_export (env : HostEnv) (s : Series) :
    (env.has_import_arrow_from_c = true ∨ env.has_import_from_c = true →
      PySeries.into_pyobject env s =
        .viaPolars s.name
          ((CompatLevel.with_level (env.newest_compat_level.getD 1)).getD
            CompatLevel.newest) s.chunks ∧
      (PySeries.into_pyobject env s).numDescriptorPairs = s.n_chunks) ∧
    (env.has_import_arrow_from_c = false → env.has_import_from_c = false →
      PySeries.into_pyobject env s =
        .viaPyarrow s.name CompatLevel.oldest s.chunks.flatten ∧
      (PySeries.into_pyobject env s).numDescriptorPairs = 1) := by
  constructor
  · intro h
    have hcond : (env.has_import_arrow_from_c || env.has_import_from_c) = true := by
      rcases h with h | h <;> simp [h]
    refine ⟨by simp [PySeries.into_pyobject, hcond], ?_⟩
    simp [PySeries.into_pyobject, hcond, SeriesExport.numDescriptorPairs,
      Series.n_chunks]
  · intro h1 h2
    have hcond : (env.has_import_arrow_from_c || env.has_import_from_c) = false := by
      simp [h1, h2]
    refine ⟨?_, ?_⟩
    · simp [PySeries.into_pyobject, hcond, Series.rechunk, Series.to_arrow]
    · simp [PySeries.into_pyobject, hcond, SeriesExport.numDescriptorPairs]

/-- C4 witness: the amended theorem at a hook-bearing environment and a
two-chunk series. -/
theorem c4_per_chunk_export_witness :
    PySeries.into_pyobject ⟨true, false, some 1⟩ ⟨"y", [[1], [2, 3]]⟩ =
      .viaPolars "y"
        ((CompatLevel.with_level ((some 1).getD 1)).getD CompatLevel.newest)
        [[1], [2, 3]] ∧
    (PySeries.into_pyobject ⟨true, false, some 1⟩
      ⟨"y", [[1], [2, 3]]⟩).numDescriptorPairs =
      Series.n_chunks ⟨"y", [[1], [2, 3]]⟩ :=
  (c4_per_chunk_export ⟨true, false, some 1⟩ ⟨"y", [[1], [2, 3]]⟩).1
    (Or.inl rfl)

/-- C7: for every byte sequence on which the plan (or expression)
deserializer fails, the lazy-frame (or expression) decode fails with the
distinct `PyPolarsErr::Other` condition — not a generic engine/parse
error — whose message mentions a possible version mismatch between the
polars builds. -/
theorem c7_deserialize_version_error {Plan ExprT : Type}
    (deserL : List Nat → Except String Plan)
    (deserE : List Nat → Except String ExprT)
    (state : List Nat) (e : String) :
    (deserL state = .error e →
      PyLazyFrame.extract_bound deserL state =
        .error (.polars (.other (lazyDeserializeMsg e))) ∧
      strContains (lazyDeserializeMsg e)
        "This may be due to mismatched polars versions") ∧
    (deserE state = .error e →
      PyExpr.extract_bound deserE state =
        .error (.polars (.other (exprDeserializeMsg e))) ∧
      strContains (exprDeserializeMsg e)
        "This may be due to mismatched polars versions") := by
  constructor
  · intro h
    refine ⟨by simp [PyLazyFrame.extract_bound, h], ?_⟩
    exact ⟨"Error when deserializing LazyFrame. ", ". " ++ e, rfl⟩
  · intro h
    refine ⟨by simp [PyExpr.extract_bound, h], ?_⟩
    exact ⟨"Error when deserializing " ++ (sq ++ ("Expr" ++ (sq ++ ". "))),
      ". " ++ e, rfl⟩

/-- C7 witness: a deserializer that rejects the bytes makes the
lazy-frame decode fail with the version-mismatch condition. -/
theorem c7_deserialize_version_error_witness :
    PyLazyFrame.extract_bound (fun _ => (.error "corrupt" : Except String Unit)) [] =
      .error (.polars (.other (lazyDeserializeMsg "corrupt"))) ∧
    strContains (lazyDeserializeMsg "corrupt")
      "This may be due to mismatched polars versions" :=
  (c7_deserialize_version_error (fun _ => (.error "corrupt" : Except String Unit))
    (fun _ => (.error "corrupt" : Except String Unit)) [] "corrupt").1 rfl

/-- C8 (counterexample): `Unknown(Any)` belongs to the Unknown family,
yet its encode emits the host `Unknown` class instance — a residual
Unknown — rather than a concrete materialized type. -/
theorem c8_unknown_any_counterexample :
    PyDataType.into_pyobject (.unknown .any) = .ok (.simple "Unknown") ∧
    HostDType.isUnknownHost (.simple "Unknown") = true :=
  ⟨rfl, rfl⟩

/-- C8 (amended): the three contentful placeholders are materialized
before encoding and never emit a residual Unknown: an integer
placeholder encodes as the `materialize_dyn_int` minimal dtype (Int32,
Int64 or UInt64, or Null when outside the u64 range), a float
placeholder as Float64, a string placeholder as String; only the
`Unknown(Any)` placeholder encodes as the host `Unknown` class. -/
theorem c8_placeholder_materialization :
    (∀ v : Int, PyDataType.into_pyobject (.unknown (.int v)) =
        PyDataType.into_pyobject (materializeDynInt v) ∧
      (materializeDynInt v = .int32 ∨ materializeDynInt v = .int64 ∨
        materializeDynInt v = .uint64 ∨ materializeDynInt v = .null)) ∧
    PyDataType.into_pyobject (.unknown .float) = .ok (.simple "Float64") ∧
    PyDataType.into_pyobject (.unknown .str) = .ok (.simple "String") ∧
    (∀ k : UnknownKind, k ≠ .any →
      ∀ h, PyDataType.into_pyobject (.unknown k) = .ok h →
        h.isUnknownHost = false) := by
  refine ⟨fun v => ⟨into_unknown_int_eq v, materializeDynInt_cases v⟩,
    rfl, rfl, ?_⟩
  intro k hk h hEnc
  cases k with
  | any => exact absurd rfl hk
  | float =>
      have : h = .simple "Float64" := by
        simpa [PyDataType.into_pyobject] using hEnc.symm
      simp [this, HostDType.isUnknownHost]
  | str =>
      have : h = .simple "String" := by
        simpa [PyDataType.into_pyobject] using hEnc.symm
      simp [this, HostDType.isUnknownHost]
  | int v =>
      have hh : h = encodeDynIntHost v := by
        simpa [PyDataType.into_pyobject] using hEnc.symm
      rcases materializeDynInt_cases v with hm | hm | hm | hm <;>
        simp [hh, encodeDynIntHost, hm, HostDType.isUnknownHost]

/-- C8 witness: the amended theorem at the float placeholder and at a
large integer placeholder materializing as Int64. -/
theorem c8_placeholder_materialization_witness :
    (PyDataType.into_pyobject (.unknown (.int 2147483648)) =
        PyDataType.into_pyobject (materializeDynInt 2147483648) ∧
      (materializeDynInt 2147483648 = .int32 ∨
        materializeDynInt 2147483648 = .int64 ∨
        materializeDynInt 2147483648 = .uint64 ∨
        materializeDynInt 2147483648 = .null)) ∧
    HostDType.isUnknownHost (.simple "Float64") = false :=
  ⟨c8_placeholder_materialization.1 2147483648,
   c8_placeholder_materialization.2.2.2 .float (by decide) (.simple "Float64") rfl⟩

end PyO3Polars
